import Mathlib

/-!
Shallow embedding of the `mharender` image-to-mesh pipeline
(`src/main.py`, `src/app.py`).

Numeric model: Python floats are embedded as rationals (`ℚ`); the
pipeline only multiplies by the exactly representable constants 0.5 and
1.5 and divides 8-bit integers by 255, so the algebraic structure of the
claims is preserved.  Pixel channel samples are `ℕ` (8-bit values,
bounded by well-formedness predicates where a claim needs it).
-/

namespace Mharender

/-- Errors surfaced by the pipeline and by the external libraries it
calls (OpenCV decode/convert failures, Python dynamic type errors are
modelled separately). -/
inductive Err where
  | invalidChannels   -- cv2.cvtColor assertion: BGR2GRAY needs 3/4 channels
  | fileNotFound      -- load_image: cv2.imread returned None
  | notImplemented    -- load_image: .pdf / .dwg placeholder branches
  deriving Repr, DecidableEq

/-- A mesh vertex, embedding the Python 3-element list `[x, y, z]`
built by `create_3d_mesh` (src/main.py:47). -/
structure Vertex where
  x : ℚ
  y : ℚ
  z : ℚ
  deriving Repr, DecidableEq

/-- A decoded raster image as produced by `cv2.imread` / `np.array`:
a channel count and a row-major grid of pixels, each pixel a list of
channel samples (uniform length = `channels` under `Mat.WF`). -/
structure Mat where
  channels : ℕ
  rows : List (List (List ℕ))
  deriving Repr, DecidableEq

/-- Well-formedness of a decoded image: every pixel has exactly
`channels` samples and every sample fits in 8 bits. -/
def Mat.WF (m : Mat) : Prop :=
  ∀ r ∈ m.rows, ∀ px ∈ r, px.length = m.channels ∧ ∀ c ∈ px, c ≤ 255

/-- Fixed-point BGR→gray conversion used by OpenCV for 8-bit data:
`Y = (B*1868 + G*9617 + R*4899 + 2^13) >> 14` with pixels stored in
B,G,R channel order.  Models the `cv2.cvtColor(image, cv2.COLOR_BGR2GRAY)`
call at src/main.py:30. -/
def bgr2grayPixel (px : List ℕ) : ℕ :=
  (px.getD 0 0 * 1868 + px.getD 1 0 * 9617 + px.getD 2 0 * 4899 + 8192) / 16384

/-- Model of `cv2.cvtColor(·, cv2.COLOR_BGR2GRAY)`: OpenCV asserts that
the source has 3 or 4 channels (`scn == 3 || scn == 4`) and otherwise
raises `cv2.error`; on success each pixel collapses to one gray sample. -/
def cvtColorBGR2GRAY (m : Mat) : Except Err (List (List ℕ)) :=
  if m.channels = 3 ∨ m.channels = 4 then
    .ok (m.rows.map (fun r => r.map bgr2grayPixel))
  else
    .error .invalidChannels

/-- Embedding of `generate_height_map` (src/main.py:28-32):
`gray = cv2.cvtColor(image, cv2.COLOR_BGR2GRAY)` followed by
`gray.astype(np.float32) / 255.0`. -/
def generate_height_map (image : Mat) : Except Err (List (List ℚ)) := do
  let gray ← cvtColorBGR2GRAY image
  return gray.map (fun r => r.map (fun g : ℕ => (g : ℚ) / 255))

/-- Numpy `height_map.shape` for the 2-D array: `(h, w)` where `w` is
the length of the first row (0 for an empty array). -/
def shape (hm : List (List ℚ)) : ℕ × ℕ :=
  (hm.length, (hm.headD []).length)

/-- Embedding of `create_3d_mesh` (src/main.py:35-49): one vertex per
grid cell, `y` outer loop and `x` inner loop (row-major), coordinates
`[float(x), float(y), float(z)]` with `z = height_map[y, x]`.  The
source leaves face generation as a placeholder (`faces = []` is never
extended), so the face list returned is always empty. -/
def create_3d_mesh (height_map : List (List ℚ)) : List Vertex × List (List ℕ) :=
  let h := (shape height_map).1
  let w := (shape height_map).2
  let vertices :=
    (List.range h).flatMap (fun y =>
      (List.range w).map (fun x =>
        ⟨(x : ℚ), (y : ℚ), (height_map.getD y []).getD x 0⟩))
  (vertices, [])

/-- Embedding of `apply_style` (src/main.py:52-61): scale `z` by 0.5
for "classic", by 1.5 for "nostalgic", otherwise return the input
list as-is. -/
def apply_style (vertices : List Vertex) (style : String) : List Vertex :=
  if style = "classic" then
    vertices.map (fun v => ⟨v.x, v.y, v.z * (1 / 2)⟩)
  else if style = "nostalgic" then
    vertices.map (fun v => ⟨v.x, v.y, v.z * (3 / 2)⟩)
  else
    vertices

/-- Embedding of `apply_texture` (src/main.py:64-68): a placeholder
that ignores the texture image and returns the vertices unchanged; no
UV coordinates are computed anywhere. -/
def apply_texture (vertices : List Vertex) (_texture_image : Mat) : List Vertex :=
  vertices

/-- One line of the OBJ file written by `save_obj` (src/main.py:71-78).
The decimal rendering of numbers is abstracted (the round-trip claim
grants floating-point formatting tolerance); face indices are stored
exactly as written, i.e. already converted to 1-based. -/
inductive ObjLine where
  | vLine (x y z : ℚ)
  | vtLine (u v : ℚ)
  | fLine (idxs : List ℕ)
  deriving Repr, DecidableEq

/-- Embedding of `save_obj` (src/main.py:71-78) as the sequence of
lines written to `output_path`: one `v x y z` line per vertex, then one
`f` line per face with each internal 0-based index written as `idx + 1`.
The source takes no UV argument and never writes a `vt` line. -/
def save_obj (vertices : List Vertex) (faces : List (List ℕ)) : List ObjLine :=
  vertices.map (fun v => .vLine v.x v.y v.z)
    ++ faces.map (fun face => .fLine (face.map (· + 1)))

/-- Read the vertex positions back from the `v` lines of an OBJ file,
in order. -/
def parseV (lines : List ObjLine) : List Vertex :=
  lines.filterMap (fun l => match l with
    | .vLine x y z => some ⟨x, y, z⟩
    | _ => none)

/-- Read the UV pairs back from the `vt` lines of an OBJ file, in
order. -/
def parseVt (lines : List ObjLine) : List (ℚ × ℚ) :=
  lines.filterMap (fun l => match l with
    | .vtLine u v => some (u, v)
    | _ => none)

/-- Read the faces back from the `f` lines of an OBJ file, converting
the written 1-based indices back to internal 0-based indices. -/
def parseF (lines : List ObjLine) : List (List ℕ) :=
  lines.filterMap (fun l => match l with
    | .fLine idxs => some (idxs.map (· - 1))
    | _ => none)

/-- Embedding of the CLI pipeline `main` (src/main.py:81-107) after
argument parsing: the decode results of the input image and of the
optional texture image are supplied by the environment as `Except`
values (a `.error` models `load_image` raising).  Note the texture
branch (src/main.py:100-103) calls `load_image(args.texture)` with no
exception handler, so a texture decode failure propagates and aborts
the run before `save_obj` writes anything. -/
def run_main (input : Except Err Mat) (style : String)
    (texture : Option (Except Err Mat)) : Except Err (List ObjLine) := do
  let image ← input
  let height_map ← generate_height_map image
  let (vertices, faces) := create_3d_mesh height_map
  let styled := apply_style vertices style
  let final ← match texture with
    | some t => do
        let texture_img ← t
        pure (apply_texture styled texture_img)
    | none => pure styled
  return save_obj final faces

/-! Dynamic model of the `save_obj` call in the web app.  `src/app.py:88`
invokes `save_obj(output_path, vertices_styled, faces)` positionally,
while the definition at `src/main.py:71` binds `(vertices, faces,
output_path)`.  Python is dynamically typed, so the mismatch surfaces at
run time; we embed the run-time checks the interpreter performs. -/

/-- A Python run-time value as far as `save_obj` inspects its
arguments: a string, a number, or a list. -/
inductive PyVal where
  | str (s : String)
  | num (q : ℚ)
  | list (xs : List PyVal)

/-- Python run-time errors raised by the operations `save_obj`
performs on its arguments. -/
inductive PyErr where
  | typeError
  | indexError
  deriving Repr, DecidableEq

/-- Python subscript `v[i]`: lists and strings are subscriptable
(an out-of-range index raises IndexError), numbers raise TypeError. -/
def pyGetItem (v : PyVal) (i : ℕ) : Except PyErr PyVal :=
  match v with
  | .list xs =>
      match xs[i]? with
      | some x => .ok x
      | none => .error .indexError
  | .str s =>
      match s.toList[i]? with
      | some c => .ok (.str c.toString)
      | none => .error .indexError
  | .num _ => .error .typeError

/-- Python iteration `for x in v`: lists iterate their elements,
strings iterate their characters, numbers raise TypeError. -/
def pyIter (v : PyVal) : Except PyErr (List PyVal) :=
  match v with
  | .list xs => .ok xs
  | .str s => .ok (s.toList.map (fun c => .str c.toString))
  | .num _ => .error .typeError

/-- Python `idx + 1`: defined for numbers, TypeError for a string or
list left operand. -/
def pyAddOne (v : PyVal) : Except PyErr ℚ :=
  match v with
  | .num q => .ok (q + 1)
  | _ => .error .typeError

/-- One line of the file as the dynamic model writes it: the values
interpolated into the `v` f-string, or the already-1-based numeric
indices of an `f` line. -/
inductive DynLine where
  | vParts (a b c : PyVal)
  | fParts (idxs : List ℚ)

/-- Dynamic embedding of `save_obj` (src/main.py:71-78) with the
interpreter's run-time checks: `open(output_path, "w")` raises
TypeError unless `output_path` is a string (checked first, before any
line is written); then each vertex is iterated and subscripted at 0, 1,
2; then each face is iterated and each index incremented.  On success
it returns the opened path and the written lines. -/
def save_obj_dyn (vertices faces output_path : PyVal) :
    Except PyErr (String × List DynLine) := do
  let path ← match output_path with
    | .str p => pure p
    | _ => Except.error .typeError
  let vlist ← pyIter vertices
  let vlines ← vlist.mapM (fun v => do
    let a ← pyGetItem v 0
    let b ← pyGetItem v 1
    let c ← pyGetItem v 2
    pure (DynLine.vParts a b c))
  let flist ← pyIter faces
  let flines ← flist.mapM (fun face => do
    let idxs ← pyIter face
    let ones ← idxs.mapM pyAddOne
    pure (DynLine.fParts ones))
  return (path, vlines ++ flines)

/-- The serialization step of the web app's Convert flow exactly as
written at src/app.py:88: `save_obj(output_path, vertices_styled,
faces)` — the first positional argument (a path string) lands in the
`vertices` parameter, the second (the styled vertex list) in `faces`,
and the third (the face list) in `output_path`. -/
def app_save_obj_call (output_path : String)
    (vertices_styled faces : List PyVal) : Except PyErr (String × List DynLine) :=
  save_obj_dyn (.str output_path) (.list vertices_styled) (.list faces)

/-! Helper lemmas. -/

/-- Indexing a `flatMap` all of whose blocks have length `w`: the
element at `i * w + j` (with `j < w`) is element `j` of block `i`. -/
theorem getElem?_flatMap_uniform {α β : Type} (g : α → List β) (w : ℕ)
    (hg : ∀ a, (g a).length = w) :
    ∀ (l : List α) (i j : ℕ) (a : α), l[i]? = some a → j < w →
      (l.flatMap g)[i * w + j]? = (g a)[j]? := by
  intro l
  induction l with
  | nil => intro i j a h _; simp at h
  | cons b t ih =>
    intro i j a h hj
    rw [List.flatMap_cons]
    cases i with
    | zero =>
      rw [List.getElem?_cons_zero, Option.some_inj] at h
      subst h
      rw [Nat.zero_mul, Nat.zero_add,
        List.getElem?_append_left (by rw [hg b]; exact hj)]
    | succ k =>
      rw [List.getElem?_cons_succ] at h
      have hlen : (g b).length ≤ (k + 1) * w + j := by
        rw [hg b, Nat.succ_mul]
        omega
      rw [List.getElem?_append_right hlen, hg b]
      have hsub : (k + 1) * w + j - w = k * w + j := by
        rw [Nat.succ_mul]
        omega
      rw [hsub]
      exact ih k j a h hj

/-- Parsing the `v` lines of a file written by `save_obj` recovers the
vertex list. -/
theorem parseV_save_obj (vs : List Vertex) (fs : List (List ℕ)) :
    parseV (save_obj vs fs) = vs := by
  show List.filterMap _ (vs.map _ ++ fs.map _) = vs
  rw [List.filterMap_append, List.filterMap_map, List.filterMap_map]
  show List.filterMap some vs ++ List.filterMap (fun _ => none) fs = vs
  rw [List.filterMap_some, List.filterMap_eq_nil_iff.mpr (fun a _ => rfl),
    List.append_nil]

/-- A file written by `save_obj` contains no `vt` line, so the parsed
UV list is always empty. -/
theorem parseVt_save_obj (vs : List Vertex) (fs : List (List ℕ)) :
    parseVt (save_obj vs fs) = [] := by
  show List.filterMap _ (vs.map _ ++ fs.map _) = []
  rw [List.filterMap_append, List.filterMap_map, List.filterMap_map]
  show List.filterMap (fun _ => none) vs ++ List.filterMap (fun _ => none) fs = []
  rw [List.filterMap_eq_nil_iff.mpr (fun a _ => rfl),
    List.filterMap_eq_nil_iff.mpr (fun a _ => rfl)]
  rfl

/-- Parsing the `f` lines of a file written by `save_obj` undoes the
0-based → 1-based conversion and recovers the face list. -/
theorem parseF_save_obj (vs : List Vertex) (fs : List (List ℕ)) :
    parseF (save_obj vs fs) = fs := by
  show List.filterMap _ (vs.map _ ++ fs.map _) = fs
  rw [List.filterMap_append, List.filterMap_map, List.filterMap_map]
  show List.filterMap (fun _ => none) vs ++
    List.filterMap (fun face => some ((face.map (· + 1)).map (· - 1))) fs = fs
  rw [List.filterMap_eq_nil_iff.mpr (fun a _ => rfl), List.nil_append]
  have h : ∀ face : List ℕ, (face.map (· + 1)).map (· - 1) = face := by
    intro face
    induction face with
    | nil => rfl
    | cons x t iht => simp [iht]
  calc List.filterMap (fun face => some ((face.map (· + 1)).map (· - 1))) fs
      = List.filterMap some fs := by
        congr 1
        funext face
        rw [h face]
    _ = fs := List.filterMap_some fs

/-- A list of naturals all bounded by 255 has `getD _ 0` bounded by
255 at every index. -/
theorem getD_le_255 (l : List ℕ) (i : ℕ) (hl : ∀ c ∈ l, c ≤ 255) :
    l.getD i 0 ≤ 255 := by
  rw [List.getD_eq_getElem?_getD]
  cases h : l[i]? with
  | none => simp
  | some v => simpa using hl v (List.getElem?_mem h)

/-- The fixed-point gray conversion of an 8-bit pixel is again an
8-bit value. -/
theorem bgr2grayPixel_le_255 (px : List ℕ) (hpx : ∀ c ∈ px, c ≤ 255) :
    bgr2grayPixel px ≤ 255 := by
  have h0 := getD_le_255 px 0 hpx
  have h1 := getD_le_255 px 1 hpx
  have h2 := getD_le_255 px 2 hpx
  unfold bgr2grayPixel
  omega

/-! Claim theorems. -/

/-- C1: the claim says `create_3d_mesh` returns `2*(W-1)*(H-1)` faces
with all indices below `W*H`; in the source the face generation is a
placeholder and the returned face list is always empty, so on the 2×2
height field the code yields 4 vertices but 0 faces instead of the
claimed 2. -/
theorem c1_triangulator_emits_no_faces :
    (∀ hm : List (List ℚ), (create_3d_mesh hm).2 = [])
    ∧ (create_3d_mesh [[0, 0], [0, 0]]).1.length = 4
    ∧ (create_3d_mesh [[0, 0], [0, 0]]).2.length = 0 :=
  ⟨fun _ => rfl, rfl, rfl⟩

/-- C2: the claim says a single-row or single-column height field
raises `InvalidHeightField`; the source contains no such error and no
dimension check, and `create_3d_mesh` succeeds on a 1×2 height field,
returning its 2 vertices and an empty face list. -/
theorem c2_single_row_triangulates_without_error :
    create_3d_mesh [[(1 : ℚ) / 2, 1]] = ([⟨0, 0, 1 / 2⟩, ⟨1, 0, 1⟩], []) := by
  unfold create_3d_mesh shape
  norm_num [List.range_succ]

/-- C3: `apply_style` multiplies only the z component — 0.5 for
"classic", 1.5 for "nostalgic" — returns the input unchanged for
"modern", keeps x and y, and preserves length and index alignment. -/
theorem c3_apply_style_multipliers (vs : List Vertex) (i : ℕ) :
    (apply_style vs "classic")[i]? =
      (vs[i]?).map (fun v => ⟨v.x, v.y, v.z * (1 / 2)⟩)
    ∧ (apply_style vs "nostalgic")[i]? =
      (vs[i]?).map (fun v => ⟨v.x, v.y, v.z * (3 / 2)⟩)
    ∧ apply_style vs "modern" = vs
    ∧ ∀ style, (apply_style vs style).length = vs.length := by
  refine ⟨?_, ?_, rfl, ?_⟩
  · rw [show apply_style vs "classic" =
      vs.map (fun v => ⟨v.x, v.y, v.z * (1 / 2)⟩) from rfl, List.getElem?_map]
  · rw [show apply_style vs "nostalgic" =
      vs.map (fun v => ⟨v.x, v.y, v.z * (3 / 2)⟩) from rfl, List.getElem?_map]
  · intro style
    unfold apply_style
    split
    · rw [List.length_map]
    · split
      · rw [List.length_map]
      · rfl

/-- C4: the claim says the texture mapper assigns each vertex the UV
`(col/(W-1), row/(H-1))`; in the source `apply_texture` is a
placeholder that returns the vertices unchanged, and no UV coordinate
is ever produced or serialized (the written file never contains a `vt`
line). -/
theorem c4_texture_mapper_is_noop :
    (∀ (vs : List Vertex) (t : Mat), apply_texture vs t = vs)
    ∧ ∀ (vs : List Vertex) (fs : List (List ℕ)),
        parseVt (save_obj vs fs) = [] :=
  ⟨fun _ _ => rfl, parseVt_save_obj⟩

/-- C5: the claim says a texture decode failure never aborts the
pipeline; in the CLI pipeline (`main`, src/main.py:100-103) the
`load_image(args.texture)` call has no handler, so the decode failure
propagates and the run aborts with no output, as this concrete run
shows. -/
theorem c5_cli_texture_decode_failure_aborts :
    run_main (Except.ok ⟨3, [[[10, 20, 30]]]⟩) "modern"
      (some (Except.error Err.fileNotFound)) =
      Except.error Err.fileNotFound := by
  rfl

/-- C6 counterexample: the claim says a single-channel image is passed
through unchanged and normalized; in the source the unconditional
`cv2.cvtColor(·, COLOR_BGR2GRAY)` call rejects a single-channel image,
so on the 1×1 single-channel image with sample 128 the extractor
signals an error instead of returning the grid `[[128/255]]`. -/
theorem c6_counterexample_single_channel_rejected :
    generate_height_map ⟨1, [[[128]]]⟩ = Except.error Err.invalidChannels
    ∧ generate_height_map ⟨1, [[[128]]]⟩ ≠ Except.ok [[(128 : ℚ) / 255]] := by
  have h : generate_height_map ⟨1, [[[128]]]⟩ =
      Except.error Err.invalidChannels := rfl
  exact ⟨h, by rw [h]; exact fun hc => Except.noConfusion hc⟩

/-- C6 (amended): for every well-formed 3-channel 8-bit image, the
extractor succeeds, keeps the W×H grid dimensions (same number of
rows, each row of the same length), and every sample lies in [0,1]
because the 8-bit gray value is divided by 255. -/
theorem c6_extractor_three_channel_normalized (m : Mat)
    (hwf : m.WF) (hch : m.channels = 3) :
    ∃ hm, generate_height_map m = Except.ok hm
      ∧ hm.length = m.rows.length
      ∧ (∀ i : ℕ, (hm[i]?).map List.length = (m.rows[i]?).map List.length)
      ∧ ∀ r ∈ hm, ∀ s ∈ r, 0 ≤ s ∧ s ≤ 1 := by
  refine ⟨(m.rows.map (fun r => r.map bgr2grayPixel)).map
      (fun r => r.map (fun g : ℕ => (g : ℚ) / 255)), ?_, ?_, ?_, ?_⟩
  · unfold generate_height_map cvtColorBGR2GRAY
    rw [if_pos (Or.inl hch)]
    rfl
  · rw [List.length_map, List.length_map]
  · intro i
    cases h : m.rows[i]? with
    | none =>
      rw [List.getElem?_map, List.getElem?_map, h]
      rfl
    | some r =>
      rw [List.getElem?_map, List.getElem?_map, h]
      show some (((r.map bgr2grayPixel).map (fun g : ℕ => (g : ℚ) / 255)).length) =
        some r.length
      rw [List.length_map, List.length_map]
  · intro r hr s hs
    simp only [List.mem_map] at hr
    obtain ⟨r1, ⟨r0, hr0, rfl⟩, rfl⟩ := hr
    simp only [List.mem_map] at hs
    obtain ⟨g, ⟨px, hpx, rfl⟩, rfl⟩ := hs
    have hb : bgr2grayPixel px ≤ 255 :=
      bgr2grayPixel_le_255 px (fun c hc => ((hwf r0 hr0 px hpx).2 c hc))
    constructor
    · positivity
    · rw [div_le_one (by norm_num)]
      exact_mod_cast hb

/-- C6 witness: the amended extractor theorem evaluated on the
concrete 1×1 3-channel image with samples (0, 128, 255). -/
theorem c6_extractor_three_channel_normalized_witness :
    ∃ hm, generate_height_map ⟨3, [[[0, 128, 255]]]⟩ = Except.ok hm
      ∧ hm.length = (Mat.rows ⟨3, [[[0, 128, 255]]]⟩).length
      ∧ (∀ i : ℕ, (hm[i]?).map List.length =
          ((Mat.rows ⟨3, [[[0, 128, 255]]]⟩)[i]?).map List.length)
      ∧ ∀ r ∈ hm, ∀ s ∈ r, 0 ≤ s ∧ s ≤ 1 :=
  c6_extractor_three_channel_normalized ⟨3, [[[0, 128, 255]]]⟩
    (by unfold Mat.WF; decide) rfl

/-- C7: the vertex generated for grid cell (row, col) sits at index
`row * W + col` of the vertex sequence with coordinates
`(col, row, sample)`; `apply_style` preserves length and the x, y
components at every index, and `apply_texture` returns the vertex
sequence unchanged, so face indices keep referencing the intended
vertices. -/
theorem c7_vertex_index_identity (hm : List (List ℚ)) (row col : ℕ)
    (hrow : row < (shape hm).1) (hcol : col < (shape hm).2) :
    ((create_3d_mesh hm).1)[row * (shape hm).2 + col]? =
      some ⟨(col : ℚ), (row : ℚ), (hm.getD row []).getD col 0⟩
    ∧ (∀ style, (apply_style (create_3d_mesh hm).1 style).length =
        (create_3d_mesh hm).1.length)
    ∧ (∀ (style : String) (i : ℕ),
        ((apply_style (create_3d_mesh hm).1 style)[i]?).map Vertex.x =
          (((create_3d_mesh hm).1)[i]?).map Vertex.x
        ∧ ((apply_style (create_3d_mesh hm).1 style)[i]?).map Vertex.y =
          (((create_3d_mesh hm).1)[i]?).map Vertex.y)
    ∧ ∀ t, apply_texture (create_3d_mesh hm).1 t = (create_3d_mesh hm).1 := by
  refine ⟨?_, ?_, ?_, fun _ => rfl⟩
  · have hg : ∀ y : ℕ, ((List.range (shape hm).2).map
        (fun x : ℕ => (⟨(x : ℚ), (y : ℚ), (hm.getD y []).getD x 0⟩ : Vertex))).length
        = (shape hm).2 := by
      intro y
      rw [List.length_map, List.length_range]
    have h := getElem?_flatMap_uniform _ _ hg (List.range (shape hm).1)
      row col row (List.getElem?_range hrow) hcol
    show ((List.range (shape hm).1).flatMap
      (fun y : ℕ => (List.range (shape hm).2).map
        (fun x : ℕ => (⟨(x : ℚ), (y : ℚ), (hm.getD y []).getD x 0⟩ : Vertex))))[
          row * (shape hm).2 + col]? = _
    rw [h, List.getElem?_map, List.getElem?_range hcol]
    rfl
  · intro style
    unfold apply_style
    split
    · rw [List.length_map]
    · split
      · rw [List.length_map]
      · rfl
  · intro style i
    unfold apply_style
    refine ⟨?_, ?_⟩ <;>
      { split
        · rw [List.getElem?_map, Option.map_map]
          rfl
        · split
          · rw [List.getElem?_map, Option.map_map]
            rfl
          · rfl }

/-- C7 witness: the index-identity theorem evaluated on the 2×2
all-zero height field at grid cell (1, 1). -/
theorem c7_vertex_index_identity_witness :
    ((create_3d_mesh [[0, 0], [0, 0]]).1)[1 * (shape [[0, 0], [0, 0]]).2 + 1]? =
      some ⟨((1 : ℕ) : ℚ), ((1 : ℕ) : ℚ),
        (([[0, 0], [0, 0]] : List (List ℚ)).getD 1 []).getD 1 0⟩
    ∧ (∀ style, (apply_style (create_3d_mesh [[0, 0], [0, 0]]).1 style).length =
        (create_3d_mesh [[0, 0], [0, 0]]).1.length)
    ∧ (∀ (style : String) (i : ℕ),
        ((apply_style (create_3d_mesh [[0, 0], [0, 0]]).1 style)[i]?).map Vertex.x =
          (((create_3d_mesh [[0, 0], [0, 0]]).1)[i]?).map Vertex.x
        ∧ ((apply_style (create_3d_mesh [[0, 0], [0, 0]]).1 style)[i]?).map Vertex.y =
          (((create_3d_mesh [[0, 0], [0, 0]]).1)[i]?).map Vertex.y)
    ∧ ∀ t, apply_texture (create_3d_mesh [[0, 0], [0, 0]]).1 t =
        (create_3d_mesh [[0, 0], [0, 0]]).1 :=
  c7_vertex_index_identity [[0, 0], [0, 0]] 1 1 (by decide) (by decide)

/-- C8 counterexample: the claim says serializing a mesh and parsing
the file back reproduces its UVs; `save_obj` accepts no UV sequence
and writes no `vt` line, so for the mesh with one vertex and the
nonempty UV sequence [(1/2, 1/2)] the parsed UV list is empty and the
UVs are not reproduced. -/
theorem c8_counterexample_uvs_lost :
    parseVt (save_obj [⟨0, 0, 0⟩] []) ≠ [((1 : ℚ) / 2, (1 : ℚ) / 2)] := by
  decide

/-- C8 (amended): serializing vertices and faces with `save_obj` and
parsing the `v`/`f` lines back reproduces the vertex positions and the
face index triples (the written 1-based indices invert the internal
0-based ones); the parsed UV list is always empty because no `vt` line
is ever written. -/
theorem c8_obj_round_trip_vertices_faces (vs : List Vertex)
    (fs : List (List ℕ)) :
    parseV (save_obj vs fs) = vs
    ∧ parseF (save_obj vs fs) = fs
    ∧ parseVt (save_obj vs fs) = [] :=
  ⟨parseV_save_obj vs fs, parseF_save_obj vs fs, parseVt_save_obj vs fs⟩

/-- C9: the web app's Convert flow calls
`save_obj(output_path, vertices_styled, faces)` against the definition
order `(vertices, faces, output_path)`, so the face list lands in the
`output_path` parameter; `open` rejects the list with a TypeError
before anything is written, hence the serialization step can never
succeed as called. -/
theorem c9_app_save_obj_call_cannot_succeed (output_path : String)
    (vertices_styled faces : List PyVal) :
    app_save_obj_call output_path vertices_styled faces =
      Except.error PyErr.typeError :=
  rfl

/-- C10: for every style string other than "classic" and "nostalgic",
`apply_style` falls through to its final branch and returns the input
vertex list unchanged, raising no error. -/
theorem c10_apply_style_unrecognized_identity (vs : List Vertex)
    (style : String) (h1 : style ≠ "classic") (h2 : style ≠ "nostalgic") :
    apply_style vs style = vs := by
  unfold apply_style
  rw [if_neg h1, if_neg h2]

/-- C10 witness: the fall-through theorem evaluated at the
unrecognized style token "baroque". -/
theorem c10_apply_style_unrecognized_identity_witness :
    apply_style [⟨1, 2, 3⟩] "baroque" = [⟨1, 2, 3⟩] :=
  c10_apply_style_unrecognized_identity _ _ (by decide) (by decide)

end Mharender
